import Mathlib

/-!
A shallow embedding of `src/data_processing/loader.py`, the document
ingestion module of the repository: two single-file extractors
(`load_pdf_document`, `load_text_document`), an extension registry
(`LOADER_MAPPING`) and a directory aggregator (`load_documents`).

The filesystem and the PDF parser are modelled by the facts the code
queries about a path: existence, regular-file status, the `path.name`
and `path.suffix` components, the page texts the `fitz` parser would
yield (or the failure it would raise), and the text the UTF-8 reader
would yield (or the failure it would raise). Python exceptions become
`Except` errors.
-/

namespace Loader

/-- One emitted document unit. In the Python source a unit is the pair
`(text, metadata)` where `metadata` is the dict `{"source": name}` with an
optional `"page"` key for paginated formats; the optional key is modelled
as an `Option` field (`none` means the key is absent). -/
structure DocUnit where
  text : String
  source : String
  page : Option Nat
deriving Repr, DecidableEq

/-- The exception kinds `loader.py` raises. `fileNotFound` models Python
`FileNotFoundError` (the spec's `NotFound`), `invalidInput` models the
`ValueError` raised on an extension mismatch (the spec's `InvalidInput`),
and `parseFailure` models any exception escaping the parsing `try` block
(the spec's `ParseFailure`). Each carries the name reported in the message. -/
inductive LoadError where
  | fileNotFound (name : String)
  | invalidInput (name : String)
  | parseFailure (msg : String)
deriving Repr, DecidableEq

/-- What `fitz.open` and the subsequent page iteration would produce for a
given file: `openFail` when `fitz.open` itself raises, `pages ps` when the
document opens and every page's text extraction succeeds (page texts in
document order), and `failAfter extracted msg` when the document opens but
the iteration raises after the pages in `extracted` were already read. -/
inductive PdfContent where
  | openFail (msg : String)
  | pages (ps : List String)
  | failAfter (extracted : List String) (msg : String)
deriving Repr, DecidableEq

/-- The facts about one filesystem path that `loader.py` queries:
`path.name`, `path.suffix`, `path.exists()`, `path.is_file()`, what the
PDF parser would see there, and what `open(path).read()` would yield
(`Except.error` modelling a decode or I/O failure). -/
structure PathInfo where
  name : String
  suffix : String
  pExists : Bool
  isFile : Bool
  pdfContent : PdfContent
  txtRead : Except String String
deriving Repr

/-- The facts about a directory path that `load_documents` queries: its
display name (for the error message), `exists()`, `is_dir()`, and the
entries `iterdir()` enumerates, in filesystem enumeration order. -/
structure DirInfo where
  name : String
  pExists : Bool
  isDir : Bool
  entries : List PathInfo
deriving Repr

/-- Python `str.lower()`, character by character. -/
def lowercase (s : String) : String := String.mk (s.data.map Char.toLower)

/-- Python truthiness of `text.strip()`: `text.strip()` is non-empty (hence
truthy) exactly when some character of `text` is not whitespace. -/
def hasContent (s : String) : Bool := s.data.any (fun c => !c.isWhitespace)

/-- The page loop of `load_pdf_document`:
`for page_num, page in enumerate(doc): ... if text.strip(): documents.append(...)`.
`n` is the 0-based index `page_num` of the first page of the remaining list;
a page is kept only if its text is non-blank, with 1-based `page_num + 1`
recorded under the `page` metadata key. -/
def pdfUnitsFrom (name : String) (n : Nat) : List String → List DocUnit
  | [] => []
  | t :: ts =>
      (if hasContent t then [DocUnit.mk t name (some (n + 1))] else []) ++
        pdfUnitsFrom name (n + 1) ts

/-- `load_pdf_document`: check `exists()` and `is_file()` (else
`FileNotFoundError`), check `suffix.lower() == ".pdf"` (else `ValueError`),
then open with `fitz` and run the page loop; any exception from the `try`
block is printed and re-raised, so the page units built before the failure
are discarded. -/
def load_pdf_document (p : PathInfo) : Except LoadError (List DocUnit) :=
  if !p.pExists || !p.isFile then
    Except.error (LoadError.fileNotFound p.name)
  else if lowercase p.suffix ≠ ".pdf" then
    Except.error (LoadError.invalidInput p.name)
  else
    match p.pdfContent with
    | PdfContent.openFail msg => Except.error (LoadError.parseFailure msg)
    | PdfContent.pages ps => Except.ok (pdfUnitsFrom p.name 0 ps)
    | PdfContent.failAfter _ msg => Except.error (LoadError.parseFailure msg)

/-- Whether `load_pdf_document` exits with the `fitz` document still open.
In the source, `doc.close()` is the last statement of the `try` block, so it
runs only when the whole page loop succeeds; the `except` branch prints and
re-raises without closing. Hence a failure raised after `fitz.open`
succeeded leaves the handle unreleased (`true`); the precondition failures
before `fitz.open`, an `openFail` (no handle was acquired), and the success
path (explicit `doc.close()`) do not. -/
def pdfHandleLeaked (p : PathInfo) : Bool :=
  if !p.pExists || !p.isFile then false
  else if lowercase p.suffix ≠ ".pdf" then false
  else
    match p.pdfContent with
    | PdfContent.openFail _ => false
    | PdfContent.pages _ => false
    | PdfContent.failAfter _ _ => true

/-- `load_text_document`: check `exists()` and `is_file()` (else
`FileNotFoundError`), check `suffix.lower() == ".txt"` (else `ValueError`),
read the whole file; a read failure is printed and re-raised; a whitespace-only
or empty content yields `[]`, otherwise one unit `(text, {"source": name})`. -/
def load_text_document (p : PathInfo) : Except LoadError (List DocUnit) :=
  if !p.pExists || !p.isFile then
    Except.error (LoadError.fileNotFound p.name)
  else if lowercase p.suffix ≠ ".txt" then
    Except.error (LoadError.invalidInput p.name)
  else
    match p.txtRead with
    | Except.error msg => Except.error (LoadError.parseFailure msg)
    | Except.ok text =>
        if hasContent text then Except.ok [DocUnit.mk text p.name none]
        else Except.ok []

/-- The extension registry `LOADER_MAPPING`: a mapping from lower-cased
extension (leading dot included) to the extractor for that format. -/
def LOADER_MAPPING : List (String × (PathInfo → Except LoadError (List DocUnit))) :=
  [(".pdf", fun path => load_pdf_document path),
   (".txt", fun path => load_text_document path)]

/-- The body of the `for file_path in source_path.iterdir()` loop of
`load_documents`: non-files are ignored; for a regular file the lower-cased
suffix is looked up in `LOADER_MAPPING`; a missing entry is only logged; a
registered extractor is called inside a `try` whose `except` only logs, so
an extractor failure contributes nothing and the scan continues. -/
def processEntry (acc : List DocUnit) (p : PathInfo) : List DocUnit :=
  if p.isFile then
    match LOADER_MAPPING.lookup (lowercase p.suffix) with
    | some loader =>
        match loader p with
        | Except.ok docs => acc ++ docs
        | Except.error _ => acc
    | none => acc
  else acc

/-- `load_documents`: check `exists()` and `is_dir()` (else
`FileNotFoundError`), then fold the per-entry loop body over the entries in
enumeration order, starting from the empty list, and return the aggregate. -/
def load_documents (d : DirInfo) : Except LoadError (List DocUnit) :=
  if !d.pExists || !d.isDir then
    Except.error (LoadError.fileNotFound d.name)
  else
    Except.ok (d.entries.foldl processEntry [])

/-- The units a single directory entry contributes to the aggregate of
`load_documents`: nothing for a non-file, an unregistered extension, or a
failing extractor call; the extractor's units otherwise. -/
def entryUnits (p : PathInfo) : List DocUnit :=
  if p.isFile then
    match LOADER_MAPPING.lookup (lowercase p.suffix) with
    | some loader =>
        match loader p with
        | Except.ok docs => docs
        | Except.error _ => []
    | none => []
  else []

/-- A valid `.txt` file whose content is `"hello"`. -/
def txtHello : PathInfo :=
  ⟨"a.txt", ".txt", true, true, PdfContent.openFail "not a pdf", Except.ok "hello"⟩

/-- A valid two-page `.pdf` file with non-blank pages `"one"`, `"two"`. -/
def pdfTwoPages : PathInfo :=
  ⟨"b.pdf", ".pdf", true, true, PdfContent.pages ["one", "two"],
    Except.error "binary data"⟩

/-- A corrupt `.pdf` file: `fitz` raises after extracting one page. -/
def corruptPdf : PathInfo :=
  ⟨"c.pdf", ".pdf", true, true, PdfContent.failAfter ["page one"] "bad xref",
    Except.error "binary data"⟩

/-- A file with the unregistered extension `.docx`. -/
def docxFile : PathInfo :=
  ⟨"d.docx", ".docx", true, true, PdfContent.openFail "not a pdf",
    Except.error "binary data"⟩

/-- A `.pdf` file all of whose pages are blank after stripping. -/
def blankPdf : PathInfo :=
  ⟨"e.pdf", ".pdf", true, true, PdfContent.pages [" ", ""],
    Except.error "binary data"⟩

/-- A `.txt` file containing only whitespace. -/
def blankTxt : PathInfo :=
  ⟨"f.txt", ".txt", true, true, PdfContent.openFail "not a pdf",
    Except.ok "  \n\t"⟩

/-- A path that does not exist. -/
def missingPath : PathInfo :=
  ⟨"ghost.pdf", ".pdf", false, false, PdfContent.openFail "no such file",
    Except.error "no such file"⟩

/-- A directory holding a corrupt `.pdf` alongside a valid `.txt`. -/
def corruptDir : DirInfo := ⟨"data", true, true, [corruptPdf, txtHello]⟩

/-- A directory holding one valid `.txt`, one valid two-page `.pdf`, and one
file with an unregistered extension. -/
def mixedDir : DirInfo := ⟨"data", true, true, [txtHello, pdfTwoPages, docxFile]⟩

/-- A directory path that does not exist. -/
def missingDir : DirInfo := ⟨"nowhere", false, false, []⟩

end Loader
namespace Loader

/-! ### Helper lemmas -/

theorem pdfUnitsFrom_nonblank (name : String) :
    ∀ (ps : List String) (n : Nat) (u : DocUnit),
      u ∈ pdfUnitsFrom name n ps → hasContent u.text = true := by
  intro ps
  induction ps with
  | nil => intro n u hu; simp [pdfUnitsFrom] at hu
  | cons t ts ih =>
      intro n u hu
      simp only [pdfUnitsFrom] at hu
      rcases List.mem_append.mp hu with h | h
      · by_cases ht : hasContent t = true
        · rw [if_pos ht] at h
          rw [List.mem_singleton.mp h]
          exact ht
        · simp [ht] at h
      · exact ih (n + 1) u h

theorem pdfUnitsFrom_page_map (name : String) :
    ∀ (ps : List String) (n : Nat), (∀ t ∈ ps, hasContent t = true) →
      (pdfUnitsFrom name n ps).map DocUnit.page =
        (List.range' (n + 1) ps.length).map some := by
  intro ps
  induction ps with
  | nil => intro n _; rfl
  | cons t ts ih =>
      intro n h
      have ht : hasContent t = true := h t (List.mem_cons_self t ts)
      simp only [pdfUnitsFrom, if_pos ht, List.singleton_append, List.map_cons,
        List.length_cons, List.range'_succ]
      rw [ih (n + 1) (fun s hs => h s (List.mem_cons_of_mem _ hs))]

theorem pdfUnitsFrom_all_blank (name : String) :
    ∀ (ps : List String) (n : Nat), (∀ t ∈ ps, hasContent t = false) →
      pdfUnitsFrom name n ps = [] := by
  intro ps
  induction ps with
  | nil => intro n _; rfl
  | cons t ts ih =>
      intro n h
      have ht : hasContent t = false := h t (List.mem_cons_self t ts)
      simp only [pdfUnitsFrom, ht, Bool.false_eq_true, if_false, List.nil_append]
      exact ih (n + 1) (fun s hs => h s (List.mem_cons_of_mem _ hs))

theorem load_pdf_document_ok_nonblank (p : PathInfo) (l : List DocUnit)
    (h : load_pdf_document p = Except.ok l) :
    ∀ u ∈ l, hasContent u.text = true := by
  intro u hu
  unfold load_pdf_document at h
  split at h
  · exact absurd h (by simp)
  · split at h
    · exact absurd h (by simp)
    · split at h
      · exact absurd h (by simp)
      · simp only [Except.ok.injEq] at h
        subst h
        exact pdfUnitsFrom_nonblank p.name _ 0 u hu
      · exact absurd h (by simp)

theorem load_text_document_ok_nonblank (p : PathInfo) (l : List DocUnit)
    (h : load_text_document p = Except.ok l) :
    ∀ u ∈ l, hasContent u.text = true := by
  intro u hu
  unfold load_text_document at h
  split at h
  · exact absurd h (by simp)
  · split at h
    · exact absurd h (by simp)
    · split at h
      · exact absurd h (by simp)
      · rename_i text _
        split at h
        · simp only [Except.ok.injEq] at h
          subst h
          rw [List.mem_singleton.mp hu]
          assumption
        · simp only [Except.ok.injEq] at h
          subst h
          simp at hu

theorem lookup_LOADER_MAPPING (e : String) :
    LOADER_MAPPING.lookup e =
      if e = ".pdf" then some (fun path => load_pdf_document path)
      else if e = ".txt" then some (fun path => load_text_document path)
      else none := by
  by_cases h1 : e = ".pdf"
  · simp [LOADER_MAPPING, List.lookup, h1]
  · by_cases h2 : e = ".txt"
    · simp [LOADER_MAPPING, List.lookup, h1, h2]
    · have b1 : (e == ".pdf") = false := by simp [h1]
      have b2 : (e == ".txt") = false := by simp [h2]
      simp [LOADER_MAPPING, List.lookup, b1, b2, h1, h2]

theorem entryUnits_nonblank (p : PathInfo) :
    ∀ u ∈ entryUnits p, hasContent u.text = true := by
  intro u hu
  unfold entryUnits at hu
  by_cases hf : p.isFile = true
  · rw [if_pos hf, lookup_LOADER_MAPPING] at hu
    by_cases h1 : lowercase p.suffix = ".pdf"
    · rw [if_pos h1] at hu
      rcases hp : load_pdf_document p with e | docs
      · simp [hp] at hu
      · simp only [hp] at hu
        exact load_pdf_document_ok_nonblank p docs hp u hu
    · rw [if_neg h1] at hu
      by_cases h2 : lowercase p.suffix = ".txt"
      · rw [if_pos h2] at hu
        rcases hp : load_text_document p with e | docs
        · simp [hp] at hu
        · simp only [hp] at hu
          exact load_text_document_ok_nonblank p docs hp u hu
      · rw [if_neg h2] at hu
        simp at hu
  · simp [hf] at hu

theorem processEntry_eq (acc : List DocUnit) (p : PathInfo) :
    processEntry acc p = acc ++ entryUnits p := by
  unfold processEntry entryUnits
  by_cases hf : p.isFile = true
  · rw [if_pos hf, if_pos hf]
    rcases LOADER_MAPPING.lookup (lowercase p.suffix) with _ | loader
    · simp
    · rcases h : loader p with e | docs <;> simp [h]
  · rw [if_neg hf, if_neg hf]
    simp

theorem foldl_processEntry (entries : List PathInfo) :
    ∀ acc : List DocUnit,
      entries.foldl processEntry acc = acc ++ (entries.map entryUnits).flatten := by
  induction entries with
  | nil => intro acc; simp
  | cons p ps ih =>
      intro acc
      simp only [List.foldl_cons, List.map_cons, List.flatten_cons]
      rw [processEntry_eq, ih, List.append_assoc]

theorem load_documents_ok_nonblank (d : DirInfo) (l : List DocUnit)
    (h : load_documents d = Except.ok l) :
    ∀ u ∈ l, hasContent u.text = true := by
  intro u hu
  unfold load_documents at h
  split at h
  · exact absurd h (by simp)
  · simp only [Except.ok.injEq] at h
    subst h
    rw [foldl_processEntry, List.nil_append] at hu
    rcases List.mem_flatten.mp hu with ⟨s, hs, hus⟩
    rcases List.mem_map.mp hs with ⟨p, _, hps⟩
    subst hps
    exact entryUnits_nonblank p u hus

end Loader
namespace Loader

/-! ### Claim theorems -/

/-- C1: for every directory passing the initial existence-and-is-directory
check, `load_documents` returns `Except.ok` of the aggregate built by the
per-entry loop — per-file extractor failures and unregistered extensions are
only skips, never raised — and in particular a directory holding a corrupt
`.pdf` alongside a valid `.txt` yields exactly the one unit from the `.txt`
without raising. -/
theorem c1_directory_never_raises (d : DirInfo)
    (h1 : d.pExists = true) (h2 : d.isDir = true) :
    load_documents d = Except.ok (d.entries.foldl processEntry []) ∧
    load_documents corruptDir = Except.ok [DocUnit.mk "hello" "a.txt" none] := by
  constructor
  · simp [load_documents, h1, h2]
  · rfl

theorem c1_witness :
    corruptDir.pExists = true ∧ corruptDir.isDir = true ∧
      load_documents corruptDir = Except.ok [DocUnit.mk "hello" "a.txt" none] :=
  ⟨rfl, rfl, (c1_directory_never_raises corruptDir rfl rfl).2⟩

/-- C2: for a parseable `.pdf`, `load_pdf_document` returns exactly the units
of the page loop (one unit per non-blank page, in document order); when every
page is non-blank the `page` metadata values are `1..N` in order; and a blank
page between two non-blank pages is skipped without renumbering (`page`
values 1 and 3). -/
theorem c2_pdf_page_numbering (p : PathInfo) (ps : List String)
    (h1 : p.pExists = true) (h2 : p.isFile = true)
    (h3 : lowercase p.suffix = ".pdf") (h4 : p.pdfContent = PdfContent.pages ps) :
    load_pdf_document p = Except.ok (pdfUnitsFrom p.name 0 ps) ∧
    ((∀ t ∈ ps, hasContent t = true) →
      (pdfUnitsFrom p.name 0 ps).map DocUnit.page =
        (List.range' 1 ps.length).map some) ∧
    (pdfUnitsFrom "g.pdf" 0 ["one", " ", "three"]).map DocUnit.page =
      [some 1, some 3] := by
  refine ⟨?_, ?_, rfl⟩
  · simp [load_pdf_document, h1, h2, h3, h4]
  · intro h
    exact pdfUnitsFrom_page_map p.name ps 0 h

theorem c2_witness :
    lowercase pdfTwoPages.suffix = ".pdf" ∧
    load_pdf_document pdfTwoPages =
      Except.ok [DocUnit.mk "one" "b.pdf" (some 1), DocUnit.mk "two" "b.pdf" (some 2)] :=
  ⟨rfl, (c2_pdf_page_numbering pdfTwoPages ["one", "two"] rfl rfl rfl rfl).1⟩

/-- C3: for a readable `.txt` file, `load_text_document` returns exactly one
unit — the full content with metadata source only and no page key — when the
content is non-blank, and `Except.ok []` (not an error) when the content is
empty or whitespace-only. -/
theorem c3_text_loader (p : PathInfo) (text : String)
    (h1 : p.pExists = true) (h2 : p.isFile = true)
    (h3 : lowercase p.suffix = ".txt") (h4 : p.txtRead = Except.ok text) :
    (hasContent text = true →
      load_text_document p = Except.ok [DocUnit.mk text p.name none]) ∧
    (hasContent text = false → load_text_document p = Except.ok []) := by
  constructor <;> intro ht <;> simp [load_text_document, h1, h2, h3, h4, ht]

theorem c3_witness :
    hasContent "hello" = true ∧
    load_text_document txtHello = Except.ok [DocUnit.mk "hello" "a.txt" none] ∧
    hasContent "  \n\t" = false ∧
    load_text_document blankTxt = Except.ok [] :=
  ⟨by decide, (c3_text_loader txtHello "hello" rfl rfl rfl rfl).1 (by decide),
    by decide, (c3_text_loader blankTxt "  \n\t" rfl rfl rfl rfl).2 (by decide)⟩

/-- C4: every document unit returned by any of the three entry points has
text that is non-empty and not whitespace-only: blank pages and blank files
are filtered before emission, and the aggregator only concatenates units
produced by the extractors. -/
theorem c4_nonblank_invariant (r : Except LoadError (List DocUnit))
    (h : (∃ p, load_pdf_document p = r) ∨ (∃ p, load_text_document p = r) ∨
      (∃ d, load_documents d = r)) :
    ∀ l, r = Except.ok l → ∀ u ∈ l, hasContent u.text = true := by
  intro l hl u hu
  subst hl
  rcases h with ⟨p, hp⟩ | ⟨p, hp⟩ | ⟨d, hd⟩
  · exact load_pdf_document_ok_nonblank p l hp u hu
  · exact load_text_document_ok_nonblank p l hp u hu
  · exact load_documents_ok_nonblank d l hd u hu

theorem c4_witness :
    hasContent (DocUnit.mk "hello" "a.txt" none).text = true :=
  c4_nonblank_invariant (load_text_document txtHello)
    (Or.inr (Or.inl ⟨txtHello, rfl⟩))
    [DocUnit.mk "hello" "a.txt" none] rfl
    (DocUnit.mk "hello" "a.txt" none) (List.mem_singleton.mpr rfl)

/-- C5: a PDF parse failure at any point of `load_pdf_document` — at
`fitz.open` or later during the page loop — propagates as a `parseFailure`
error; the units already built for earlier pages are discarded, never
surfaced. -/
theorem c5_parse_failure_no_partial (p : PathInfo) (msg : String)
    (h1 : p.pExists = true) (h2 : p.isFile = true)
    (h3 : lowercase p.suffix = ".pdf")
    (h4 : (∃ extracted, p.pdfContent = PdfContent.failAfter extracted msg) ∨
      p.pdfContent = PdfContent.openFail msg) :
    load_pdf_document p = Except.error (LoadError.parseFailure msg) := by
  rcases h4 with ⟨ex, hc⟩ | hc <;> simp [load_pdf_document, h1, h2, h3, hc]

theorem c5_witness :
    load_pdf_document corruptPdf = Except.error (LoadError.parseFailure "bad xref") :=
  c5_parse_failure_no_partial corruptPdf "bad xref" rfl rfl rfl
    (Or.inl ⟨["page one"], rfl⟩)

/-- C6 (the code violates the claim): on the exit path where a parse failure
is raised after `fitz.open` succeeded, `doc.close()` — the last statement of
the `try` block — is never reached, because the `except` branch re-raises
without closing; on the corrupt `.pdf` the call raises `parseFailure` with
the handle still open. -/
theorem c6_handle_not_released :
    pdfHandleLeaked corruptPdf = true ∧
    load_pdf_document corruptPdf = Except.error (LoadError.parseFailure "bad xref") :=
  ⟨rfl, rfl⟩

/-- C7: a path that does not exist or is not of the expected filesystem type
makes each entry point return a `fileNotFound` error, independent of any
file content (no extraction is attempted). -/
theorem c7_not_found (p : PathInfo) (d : DirInfo)
    (hp : p.pExists = false ∨ p.isFile = false)
    (hd : d.pExists = false ∨ d.isDir = false) :
    load_pdf_document p = Except.error (LoadError.fileNotFound p.name) ∧
    load_text_document p = Except.error (LoadError.fileNotFound p.name) ∧
    load_documents d = Except.error (LoadError.fileNotFound d.name) := by
  refine ⟨?_, ?_, ?_⟩
  · rcases hp with h | h <;> simp [load_pdf_document, h]
  · rcases hp with h | h <;> simp [load_text_document, h]
  · rcases hd with h | h <;> simp [load_documents, h]

theorem c7_witness :
    load_pdf_document missingPath = Except.error (LoadError.fileNotFound "ghost.pdf") ∧
    load_text_document missingPath = Except.error (LoadError.fileNotFound "ghost.pdf") ∧
    load_documents missingDir = Except.error (LoadError.fileNotFound "nowhere") :=
  c7_not_found missingPath missingDir (Or.inl rfl) (Or.inl rfl)

/-- C8: an existing regular file whose lower-cased extension does not match
the expected format makes the single-file loaders return an `invalidInput`
error: `load_pdf_document` on a `.txt` file and `load_text_document` on a
`.pdf` file. -/
theorem c8_invalid_input (p q : PathInfo)
    (hp1 : p.pExists = true) (hp2 : p.isFile = true)
    (hp3 : lowercase p.suffix ≠ ".pdf")
    (hq1 : q.pExists = true) (hq2 : q.isFile = true)
    (hq3 : lowercase q.suffix ≠ ".txt") :
    load_pdf_document p = Except.error (LoadError.invalidInput p.name) ∧
    load_text_document q = Except.error (LoadError.invalidInput q.name) := by
  constructor
  · simp [load_pdf_document, hp1, hp2, hp3]
  · simp [load_text_document, hq1, hq2, hq3]

theorem c8_witness :
    load_pdf_document txtHello = Except.error (LoadError.invalidInput "a.txt") ∧
    load_text_document pdfTwoPages = Except.error (LoadError.invalidInput "b.pdf") :=
  c8_invalid_input txtHello pdfTwoPages rfl rfl (by decide) rfl rfl (by decide)

/-- C9: the sequence `load_documents` returns is the concatenation, in
enumeration order over the directory's entries, of each file's extracted
unit sequence in the order its extractor produced it, non-file entries and
unregistered extensions contributing nothing; a directory with one valid
`.txt`, one valid two-page `.pdf` and one `.docx` yields exactly 3 units
without raising. -/
theorem c9_aggregate_concatenation (d : DirInfo)
    (h1 : d.pExists = true) (h2 : d.isDir = true) :
    load_documents d = Except.ok ((d.entries.map entryUnits).flatten) ∧
    load_documents mixedDir = Except.ok
      [DocUnit.mk "hello" "a.txt" none, DocUnit.mk "one" "b.pdf" (some 1),
        DocUnit.mk "two" "b.pdf" (some 2)] := by
  constructor
  · simp [load_documents, h1, h2, foldl_processEntry]
  · rfl

theorem c9_witness :
    load_documents mixedDir = Except.ok
      [DocUnit.mk "hello" "a.txt" none, DocUnit.mk "one" "b.pdf" (some 1),
        DocUnit.mk "two" "b.pdf" (some 2)] :=
  (c9_aggregate_concatenation mixedDir rfl rfl).2

/-- C10: a parseable `.pdf` all of whose pages are blank after stripping
(including the zero-page document) makes `load_pdf_document` return
`Except.ok []` rather than an error. -/
theorem c10_blank_pdf_ok_empty (p : PathInfo) (ps : List String)
    (h1 : p.pExists = true) (h2 : p.isFile = true)
    (h3 : lowercase p.suffix = ".pdf") (h4 : p.pdfContent = PdfContent.pages ps)
    (h5 : ∀ t ∈ ps, hasContent t = false) :
    load_pdf_document p = Except.ok [] := by
  simp [load_pdf_document, h1, h2, h3, h4, pdfUnitsFrom_all_blank p.name ps 0 h5]

theorem c10_witness : load_pdf_document blankPdf = Except.ok [] :=
  c10_blank_pdf_ok_empty blankPdf [" ", ""] rfl rfl rfl rfl (by decide)

end Loader
